import Mathlib

/-!
Verification of the document-layout renderer in `streamlit_app.py`
(`parse_structured_text_to_pdf`, `create_pdf_styles`) and of the
language-filtering helper `extract_english_text`.

The Python string operations are embedded at the level of `List Char`
(Python strings index by code point, as `List Char` does).  The embedding
is ASCII-faithful: `str.strip()` / regex `\s` are modelled by the ASCII
whitespace characters they recognise, `\d` / `\w` by their ASCII ranges.
The PDF layout backend (reportlab) is an external library; it is modelled
as a parameter (an arbitrary function from the flowable list to bytes or
an error), as the spec treats it as an external collaborator.
-/

namespace DocAnalyzer

/-- ASCII whitespace as recognised by Python's `str.strip()` and regex `\s`:
space, tab, newline, carriage return, vertical tab, form feed. -/
def isPySpace (c : Char) : Bool :=
  c = ' ' || c = '\t' || c = '\n' || c = '\r' || c = '\x0b' || c = '\x0c'

/-- `str.strip()` on the character list: drop leading and trailing
whitespace. -/
def stripChars (cs : List Char) : List Char :=
  ((cs.dropWhile isPySpace).reverse.dropWhile isPySpace).reverse

/-- `str.startswith(p)` on character lists: `charsStartWith p cs` holds when
`p` is a prefix of `cs`. -/
def charsStartWith : List Char → List Char → Bool
  | [], _ => true
  | _ :: _, [] => false
  | p :: ps, c :: cs => p == c && charsStartWith ps cs

/-- `text.split('\n')`: split on every newline, keeping empty pieces. -/
def splitNl : List Char → List Char → List (List Char)
  | [], acc => [acc.reverse]
  | c :: cs, acc =>
    if c = '\n' then acc.reverse :: splitNl cs []
    else splitNl cs (c :: acc)

/-- String wrapper for `str.strip()`. -/
def pyStrip (s : String) : String := String.mk (stripChars s.toList)

/-- String wrapper for `str.startswith(p)`. -/
def pyStartsWith (s p : String) : Bool := charsStartWith p.toList s.toList

/-- Python slicing `s[n:]` (by code points). -/
def pyDrop (s : String) (n : Nat) : String := String.mk (s.toList.drop n)

/-- String wrapper for `text.split('\n')`. -/
def pySplitLines (s : String) : List String :=
  (splitNl s.toList []).map String.mk

/-- Second part of `re.match(r'^\d+\.\s', line)`: after the leading digits,
a literal `'.'` followed by one whitespace character. -/
def afterDigitsMatch : List Char → Bool
  | '.' :: c :: _ => isPySpace c
  | _ => false

/-- The code-point ranges of Unicode general category Nd (decimal digit,
Unicode 15.0).  Python's `\d` on `str` patterns matches exactly the Nd
characters — not only the ASCII digits `0`-`9`. -/
def ndRanges : List (Nat × Nat) :=
  [ (0x0030, 0x0039), (0x0660, 0x0669), (0x06F0, 0x06F9), (0x07C0, 0x07C9),
    (0x0966, 0x096F), (0x09E6, 0x09EF), (0x0A66, 0x0A6F), (0x0AE6, 0x0AEF),
    (0x0B66, 0x0B6F), (0x0BE6, 0x0BEF), (0x0C66, 0x0C6F), (0x0CE6, 0x0CEF),
    (0x0D66, 0x0D6F), (0x0DE6, 0x0DEF), (0x0E50, 0x0E59), (0x0ED0, 0x0ED9),
    (0x0F20, 0x0F29), (0x1040, 0x1049), (0x1090, 0x1099), (0x17E0, 0x17E9),
    (0x1810, 0x1819), (0x1946, 0x194F), (0x19D0, 0x19D9), (0x1A80, 0x1A89),
    (0x1A90, 0x1A99), (0x1B50, 0x1B59), (0x1BB0, 0x1BB9), (0x1C40, 0x1C49),
    (0x1C50, 0x1C59), (0xA620, 0xA629), (0xA8D0, 0xA8D9), (0xA900, 0xA909),
    (0xA9D0, 0xA9D9), (0xA9F0, 0xA9F9), (0xAA50, 0xAA59), (0xABF0, 0xABF9),
    (0xFF10, 0xFF19), (0x104A0, 0x104A9), (0x10D30, 0x10D39),
    (0x11066, 0x1106F), (0x110F0, 0x110F9), (0x11136, 0x1113F),
    (0x111D0, 0x111D9), (0x112F0, 0x112F9), (0x11450, 0x11459),
    (0x114D0, 0x114D9), (0x11650, 0x11659), (0x116C0, 0x116C9),
    (0x11730, 0x11739), (0x118E0, 0x118E9), (0x11950, 0x11959),
    (0x11C50, 0x11C59), (0x11D50, 0x11D59), (0x11DA0, 0x11DA9),
    (0x11F50, 0x11F59), (0x16A60, 0x16A69), (0x16AC0, 0x16AC9),
    (0x16B50, 0x16B59), (0x1D7CE, 0x1D7FF), (0x1E140, 0x1E149),
    (0x1E2F0, 0x1E2F9), (0x1E4F0, 0x1E4F9), (0x1E950, 0x1E959),
    (0x1FBF0, 0x1FBF9) ]

/-- Python's regex `\d` on a `str` pattern: any Unicode decimal digit
(category Nd), including but not limited to the ASCII digits. -/
def isPyDigit (c : Char) : Bool :=
  ndRanges.any fun r => decide (r.1 ≤ c.toNat) && decide (c.toNat ≤ r.2)

/-- `re.match(r'^\d+\.\s', line)`: one or more decimal digits at the start
(`\d` is Unicode-aware on `str` patterns, modelled by `isPyDigit`), then
`'.'`, then a whitespace character.  The `+` is greedy; since `'.'` is not
a digit, taking the maximal digit run is exact. -/
def matchesNumberedList (cs : List Char) : Bool :=
  match cs with
  | [] => false
  | c :: _ => isPyDigit c && afterDigitsMatch (cs.dropWhile isPyDigit)

/-- Modelled from the spec's words ("regex: one or more ASCII digits,
literal `.`, then whitespace, at line start"): the ASCII-digit variant of
the numbered-list pattern, stated for comparison with the source-faithful
`matchesNumberedList` above (`Char.isDigit` accepts exactly `0`-`9`). -/
def matchesNumberedAscii (cs : List Char) : Bool :=
  match cs with
  | [] => false
  | c :: _ => c.isDigit && afterDigitsMatch (cs.dropWhile Char.isDigit)

/-- The six branch outcomes of the line classifier in
`parse_structured_text_to_pdf` (one per `if`/`elif` arm). -/
inductive LineClass
  | h1 | h2 | h3 | bullet | numbered | body
  deriving DecidableEq, Repr

/-- The per-line body of the loop in `parse_structured_text_to_pdf`,
over the already-stripped character list:

  * empty line: skipped (`None`);
  * `'## '` prefix: main header, text `line[3:].strip()`;
  * `'### '` prefix: sub header, text `line[4:].strip()`;
  * `'#### '` prefix: sub-sub header, text `line[5:].strip()`;
  * `'• '` or `'- '` prefix: bullet, text `'• ' + line[2:].strip()`;
  * `re.match(r'^\d+\.\s', line)`: numbered item, text = the line;
  * otherwise: body text, text = the line.

The branches are checked in exactly the source order. -/
def classifyChars (line : List Char) : Option (LineClass × List Char) :=
  if line = [] then none
  else if charsStartWith ['#', '#', ' '] line then
    some (.h1, stripChars (line.drop 3))
  else if charsStartWith ['#', '#', '#', ' '] line then
    some (.h2, stripChars (line.drop 4))
  else if charsStartWith ['#', '#', '#', '#', ' '] line then
    some (.h3, stripChars (line.drop 5))
  else if charsStartWith ['•', ' '] line || charsStartWith ['-', ' '] line then
    some (.bullet, '•' :: ' ' :: stripChars (line.drop 2))
  else if matchesNumberedList line then
    some (.numbered, line)
  else
    some (.body, line)

/-- One loop iteration of `parse_structured_text_to_pdf`: strip the raw
line, then classify (`none` = the `continue` on a blank line). -/
def classifyLine (rawLine : String) : Option (LineClass × String) :=
  (classifyChars (stripChars rawLine.toList)).map fun kt => (kt.1, String.mk kt.2)

/-! ## Style table (`create_pdf_styles`) -/

/-- The reportlab colors used by the source. -/
inductive RLColor
  | black | blue | darkblue
  deriving DecidableEq, Repr

/-- The reportlab alignments used by the source (`TA_LEFT`, `TA_CENTER`,
`TA_JUSTIFY`). -/
inductive RLAlign
  | left | center | justify
  deriving DecidableEq, Repr

/-- The fields of a reportlab `ParagraphStyle` that the source sets or the
spec constrains.  Fields the source leaves unset take the parent style's
value (noted per style below). -/
structure ParagraphStyle where
  name : String
  fontSize : Nat
  textColor : RLColor
  spaceBefore : Nat
  spaceAfter : Nat
  leftIndent : Nat
  bulletIndent : Nat
  alignment : RLAlign
  deriving DecidableEq, Repr

/-- Modelled from the spec: the sample stylesheet supplied by the PDF
library (reportlab's `getSampleStyleSheet()`), which is outside this
repository.  Only the style *names* participate in the renderer's
"register a style if not already present" logic; the field values carry
reportlab's stock values and none of them is relied upon. -/
def sampleStyleSheet : List ParagraphStyle :=
  [ { name := "Normal", fontSize := 10, textColor := .black, spaceBefore := 0,
      spaceAfter := 0, leftIndent := 0, bulletIndent := 0, alignment := .left },
    { name := "BodyText", fontSize := 10, textColor := .black, spaceBefore := 6,
      spaceAfter := 0, leftIndent := 0, bulletIndent := 0, alignment := .left },
    { name := "Italic", fontSize := 10, textColor := .black, spaceBefore := 0,
      spaceAfter := 0, leftIndent := 0, bulletIndent := 0, alignment := .left },
    { name := "Heading1", fontSize := 18, textColor := .black, spaceBefore := 0,
      spaceAfter := 6, leftIndent := 0, bulletIndent := 0, alignment := .left },
    { name := "Title", fontSize := 18, textColor := .black, spaceBefore := 0,
      spaceAfter := 6, leftIndent := 0, bulletIndent := 0, alignment := .center },
    { name := "Heading2", fontSize := 14, textColor := .black, spaceBefore := 12,
      spaceAfter := 6, leftIndent := 0, bulletIndent := 0, alignment := .left },
    { name := "Heading3", fontSize := 12, textColor := .black, spaceBefore := 12,
      spaceAfter := 6, leftIndent := 0, bulletIndent := 0, alignment := .left },
    { name := "Heading4", fontSize := 10, textColor := .black, spaceBefore := 10,
      spaceAfter := 4, leftIndent := 0, bulletIndent := 0, alignment := .left },
    { name := "Heading5", fontSize := 9, textColor := .black, spaceBefore := 8,
      spaceAfter := 4, leftIndent := 0, bulletIndent := 0, alignment := .left },
    { name := "Heading6", fontSize := 7, textColor := .black, spaceBefore := 6,
      spaceAfter := 2, leftIndent := 0, bulletIndent := 0, alignment := .left },
    { name := "Bullet", fontSize := 10, textColor := .black, spaceBefore := 3,
      spaceAfter := 0, leftIndent := 30, bulletIndent := 0, alignment := .left },
    { name := "Definition", fontSize := 10, textColor := .black, spaceBefore := 6,
      spaceAfter := 0, leftIndent := 36, bulletIndent := 0, alignment := .left },
    { name := "Code", fontSize := 8, textColor := .black, spaceBefore := 6,
      spaceAfter := 6, leftIndent := 36, bulletIndent := 0, alignment := .left },
    { name := "UnorderedList", fontSize := 10, textColor := .black, spaceBefore := 0,
      spaceAfter := 0, leftIndent := 18, bulletIndent := 0, alignment := .left },
    { name := "OrderedList", fontSize := 10, textColor := .black, spaceBefore := 0,
      spaceAfter := 0, leftIndent := 18, bulletIndent := 0, alignment := .left } ]

/-- The source's `safe_add_style`: add the style only when no style of that
name is present. -/
def safe_add_style (styles : List ParagraphStyle) (st : ParagraphStyle) :
    List ParagraphStyle :=
  if styles.any (fun s => s.name == st.name) then styles else styles ++ [st]

/-- `create_pdf_styles`: start from the sample stylesheet and register the
six custom IRDAI styles.  Unset fields inherit from the declared parent
(`IRDAITitle` ← Title: alignment is overridden to center anyway, indents 0;
`IRDAIMainHeader` ← Heading1: left alignment, bulletIndent 0;
`IRDAISubHeader` ← Heading2; `IRDAISubSubHeader` ← Heading3;
`IRDAIBodyText` ← Normal: black; `IRDAIBulletText` ← Normal: black, left). -/
def create_pdf_styles : List ParagraphStyle :=
  let styles := sampleStyleSheet
  let styles := safe_add_style styles
    { name := "IRDAITitle", fontSize := 18, textColor := .darkblue,
      spaceBefore := 0, spaceAfter := 20, leftIndent := 0, bulletIndent := 0,
      alignment := .center }
  let styles := safe_add_style styles
    { name := "IRDAIMainHeader", fontSize := 14, textColor := .darkblue,
      spaceBefore := 16, spaceAfter := 12, leftIndent := 0, bulletIndent := 0,
      alignment := .left }
  let styles := safe_add_style styles
    { name := "IRDAISubHeader", fontSize := 12, textColor := .blue,
      spaceBefore := 10, spaceAfter := 8, leftIndent := 20, bulletIndent := 0,
      alignment := .left }
  let styles := safe_add_style styles
    { name := "IRDAISubSubHeader", fontSize := 11, textColor := .black,
      spaceBefore := 8, spaceAfter := 6, leftIndent := 40, bulletIndent := 0,
      alignment := .left }
  let styles := safe_add_style styles
    { name := "IRDAIBodyText", fontSize := 10, textColor := .black,
      spaceBefore := 3, spaceAfter := 6, leftIndent := 0, bulletIndent := 0,
      alignment := .justify }
  let styles := safe_add_style styles
    { name := "IRDAIBulletText", fontSize := 10, textColor := .black,
      spaceBefore := 2, spaceAfter := 4, leftIndent := 20, bulletIndent := 10,
      alignment := .left }
  styles

/-- The six visual tiers of the spec's data model. -/
inductive Tier
  | Title | H1 | H2 | H3 | Body | ListItem
  deriving DecidableEq, Repr

/-- Which registered style name each tier denotes in the source. -/
def tierStyleName : Tier → String
  | .Title => "IRDAITitle"
  | .H1 => "IRDAIMainHeader"
  | .H2 => "IRDAISubHeader"
  | .H3 => "IRDAISubSubHeader"
  | .Body => "IRDAIBodyText"
  | .ListItem => "IRDAIBulletText"

/-- Style lookup `styles[name]` for a tier's style name. -/
def styleFor (t : Tier) : ParagraphStyle :=
  ((create_pdf_styles.filter (fun s => s.name == tierStyleName t)).head?).getD
    { name := "", fontSize := 0, textColor := .black, spaceBefore := 0,
      spaceAfter := 0, leftIndent := 0, bulletIndent := 0, alignment := .left }

/-! ## Story assembly and PDF production (`parse_structured_text_to_pdf`) -/

/-- The flowables the source appends to the `story`: styled paragraphs and
the one spacer after the title.  A *Block* in the spec's sense is a `para`
(a (style, text) pair); the spacer is layout, not a Block. -/
inductive Flowable
  | para (style : ParagraphStyle) (text : String)
  | spacer (width height : Nat)
  deriving DecidableEq, Repr

/-- The tier of each classifier branch (bullet and numbered items share the
`IRDAIBulletText` style). -/
def classTier : LineClass → Tier
  | .h1 => .H1
  | .h2 => .H2
  | .h3 => .H3
  | .bullet => .ListItem
  | .numbered => .ListItem
  | .body => .Body

/-- The fixed title paragraph
`Paragraph("IRDAI Document Analysis Summary", styles['IRDAITitle'])`. -/
def titleParagraph : Flowable :=
  .para (styleFor .Title) "IRDAI Document Analysis Summary"

/-- The flowable one input line contributes (`none` for a blank line). -/
def lineFlowable (rawLine : String) : Option Flowable :=
  (classifyLine rawLine).map fun kt => .para (styleFor (classTier kt.1)) kt.2

/-- The full `story` built by `parse_structured_text_to_pdf`: the title,
the `Spacer(1, 20)`, then one paragraph per non-blank line of
`text.split('\n')`, in input order. -/
def buildStory (text : String) : List Flowable :=
  titleParagraph :: .spacer 1 20 :: (pySplitLines text).filterMap lineFlowable

/-- Is this flowable the title Block? -/
def isTitleBlock : Flowable → Bool
  | .para st _ => st.name == "IRDAITitle"
  | .spacer _ _ => false

/-- Is this flowable a non-title Block (a styled paragraph other than the
title)?  The spacer is not a Block. -/
def isNonTitleBlock : Flowable → Bool
  | .para st _ => !(st.name == "IRDAITitle")
  | .spacer _ _ => false

/-- Is this flowable a Block at all (any styled paragraph)? -/
def isBlockPara : Flowable → Bool
  | .para _ _ => true
  | .spacer _ _ => false

/-- Errors of the layout backend (e.g. a character it cannot encode). -/
inductive PdfError
  | encoding (msg : String)
  deriving DecidableEq, Repr

/-- `parse_structured_text_to_pdf(text, filename)`.  The layout backend
`doc.build(story)` is an external library call, taken here as the
parameter `build`; on success the buffer's bytes are returned, and an
exception raised by the backend propagates uncaught (there is no
`try`/`except` in the source function).  The `filename` parameter is
accepted and, as in the source, never used. -/
def parse_structured_text_to_pdf
    (build : List Flowable → Except PdfError (List Nat))
    (text filename : String) : Except PdfError (List Nat) :=
  match build (buildStory text) with
  | .error e => .error e
  | .ok pdfData => .ok pdfData

/-! ## `extract_english_text` -/

/-- Separator class of `re.split(r'[.!?]+', text)`. -/
def isSentenceSep (c : Char) : Bool := c = '.' || c = '!' || c = '?'

/-- `re.split(r'[.!?]+', text)` over characters: the flag records whether
we are inside a separator run (so a run of separators yields one split). -/
def splitSentencesAux : Bool → List Char → List Char → List String
  | _, [], acc => [String.mk acc.reverse]
  | inSep, c :: cs, acc =>
    if isSentenceSep c then
      if inSep then splitSentencesAux true cs acc
      else String.mk acc.reverse :: splitSentencesAux true cs []
    else splitSentencesAux false cs (c :: acc)

/-- `re.split(r'[.!?]+', text)`. -/
def splitSentences (text : String) : List String :=
  splitSentencesAux false text.toList []

/-- Python `\w` (ASCII part): letters, digits, underscore. -/
def isWordChar (c : Char) : Bool := c.isAlphanum || c = '_'

/-- Maximal word-character runs of a character list (used for the
`\b(...)\b` keyword search: since every keyword consists solely of word
characters, `\bk\b` matches iff `k` equals some maximal run). -/
def wordRuns : List Char → List Char → List (List Char)
  | [], [] => []
  | [], acc => [acc.reverse]
  | c :: cs, acc =>
    if isWordChar c then wordRuns cs (c :: acc)
    else if acc = [] then wordRuns cs []
    else acc.reverse :: wordRuns cs []

/-- The alternatives of the fallback regex
`\b(the|and|or|of|to|in|for|with|by|from|at|is|are|was|were)\b`. -/
def englishKeywords : List String :=
  ["the", "and", "or", "of", "to", "in", "for", "with", "by", "from", "at",
   "is", "are", "was", "were"]

/-- `sentence.lower()` (ASCII case folding). -/
def pyToLower (s : String) : String := String.mk (s.toList.map Char.toLower)

/-- `re.search(r'\b(the|and|...)\b', sentence.lower()) is not None`. -/
def hasEnglishKeyword (sentence : String) : Bool :=
  (wordRuns (pyToLower sentence).toList []).any fun r =>
    englishKeywords.any fun k => k.toList == r

/-- The sentence-collecting loop of `extract_english_text`: strip each
sentence; keep it only if longer than 10 characters and either detected as
English, or — when detection raises `LangDetectException` (the `.error`
case of `detect`) — matching the English-keyword fallback. -/
def collectEnglish (detect : String → Except Unit String) :
    List String → List String
  | [] => []
  | s :: rest =>
    let s := pyStrip s
    if s.length > 10 then
      match detect s with
      | .ok lang =>
        if lang = "en" then s :: collectEnglish detect rest
        else collectEnglish detect rest
      | .error _ =>
        if hasEnglishKeyword s then s :: collectEnglish detect rest
        else collectEnglish detect rest
    else collectEnglish detect rest

/-- `'. '.join(sentences)`. -/
def joinDotSpace : List String → String
  | [] => ""
  | [s] => s
  | s :: rest => s ++ ". " ++ joinDotSpace rest

/-- `extract_english_text(text)` with the language detector as a parameter
(`langdetect.detect`, an external library; `.error` models
`LangDetectException`).  This is the function's non-exception path: the
outer `except Exception` (which would return the original text) is
unreachable in the model because the only modelled failure,
`LangDetectException`, is handled by the inner `except`. -/
def extract_english_text (detect : String → Except Unit String)
    (text : String) : String :=
  joinDotSpace (collectEnglish detect (splitSentences text)) ++ "."

/-! ## Helper lemmas -/

theorem charsStartWith_iff (p cs : List Char) :
    charsStartWith p cs = true ↔ ∃ t, cs = p ++ t := by
  induction p generalizing cs with
  | nil => simp [charsStartWith]
  | cons a ps ih =>
    cases cs with
    | nil => simp [charsStartWith]
    | cons c cs =>
      simp only [charsStartWith, Bool.and_eq_true, beq_iff_eq, ih,
        List.cons_append, List.cons.injEq]
      constructor
      · rintro ⟨rfl, t, rfl⟩; exact ⟨t, rfl, rfl⟩
      · rintro ⟨t, rfl, rfl⟩; exact ⟨rfl, t, rfl⟩

theorem dropWhile_head_false {α : Type} {p : α → Bool} {c : α} {cs : List α} :
    ∀ {l : List α}, l.dropWhile p = c :: cs → p c = false := by
  intro l
  induction l with
  | nil => intro h; simp [List.dropWhile] at h
  | cons a l ih =>
    intro h
    rw [List.dropWhile_cons] at h
    by_cases ha : p a = true
    · rw [if_pos ha] at h; exact ih h
    · rw [if_neg ha] at h
      cases h
      exact Bool.eq_false_iff.mpr ha

theorem dropWhile_dropWhile {α : Type} (p : α → Bool) (l : List α) :
    (l.dropWhile p).dropWhile p = l.dropWhile p := by
  cases h : l.dropWhile p with
  | nil => simp
  | cons c cs =>
    have hpc : p c = false := dropWhile_head_false h
    rw [List.dropWhile_cons, if_neg (by simp [hpc])]

theorem dropWhile_suffix_decomp {α : Type} (p : α → Bool) (l : List α) :
    ∃ s, s ++ l.dropWhile p = l := by
  induction l with
  | nil => exact ⟨[], rfl⟩
  | cons a l ih =>
    by_cases ha : p a = true
    · obtain ⟨s, hs⟩ := ih
      exact ⟨a :: s, by rw [List.dropWhile_cons, if_pos ha, List.cons_append, hs]⟩
    · exact ⟨[], by rw [List.dropWhile_cons, if_neg ha, List.nil_append]⟩

theorem stripChars_idem (cs : List Char) :
    stripChars (stripChars cs) = stripChars cs := by
  unfold stripChars
  set A := cs.dropWhile isPySpace with hA
  set R := A.reverse.dropWhile isPySpace with hR
  -- step 1: R.reverse has no leading whitespace
  have step1 : R.reverse.dropWhile isPySpace = R.reverse := by
    obtain ⟨s, hs⟩ := dropWhile_suffix_decomp isPySpace A.reverse
    rw [← hR] at hs
    have hAR : A = R.reverse ++ s.reverse := by
      have := congrArg List.reverse hs
      simpa using this.symm
    cases hRrev : R.reverse with
    | nil => simp [hRrev]
    | cons c rs =>
      have hAc : cs.dropWhile isPySpace = c :: (rs ++ s.reverse) := by
        rw [← hA, hAR, hRrev, List.cons_append]
      have hpc : isPySpace c = false := dropWhile_head_false hAc
      rw [List.dropWhile_cons, if_neg (by simp [hpc])]
  -- step 2: R itself is a dropWhile image, hence stable
  have step2 : R.dropWhile isPySpace = R := by
    rw [hR]; exact dropWhile_dropWhile isPySpace A.reverse
  rw [step1, List.reverse_reverse, step2]

theorem classifyChars_h1 (t : List Char) :
    classifyChars ('#' :: '#' :: ' ' :: t) = some (.h1, stripChars t) := rfl

theorem classifyChars_h2 (t : List Char) :
    classifyChars ('#' :: '#' :: '#' :: ' ' :: t) = some (.h2, stripChars t) := rfl

theorem classifyChars_h3 (t : List Char) :
    classifyChars ('#' :: '#' :: '#' :: '#' :: ' ' :: t) =
      some (.h3, stripChars t) := rfl

theorem classifyChars_bullet_dot (t : List Char) :
    classifyChars ('•' :: ' ' :: t) =
      some (.bullet, '•' :: ' ' :: stripChars t) := rfl

theorem classifyChars_bullet_dash (t : List Char) :
    classifyChars ('-' :: ' ' :: t) =
      some (.bullet, '•' :: ' ' :: stripChars t) := rfl

theorem classifyLine_eq (line : String) :
    classifyLine line =
      (classifyChars (pyStrip line).toList).map fun kt => (kt.1, String.mk kt.2) :=
  rfl

theorem classifyChars_eq_none_iff (cs : List Char) :
    classifyChars cs = none ↔ cs = [] := by
  unfold classifyChars
  split_ifs <;> simp_all

theorem digit_head_not_marker {c : Char} (hc : isPyDigit c = true) :
    ('#' == c) = false ∧ ('•' == c) = false ∧ ('-' == c) = false := by
  refine ⟨?_, ?_, ?_⟩ <;>
    · rw [beq_eq_false_iff_ne]
      rintro rfl
      exact absurd hc (by decide)

theorem classifyChars_numbered {cs : List Char}
    (h : matchesNumberedList cs = true) :
    classifyChars cs = some (.numbered, cs) := by
  cases cs with
  | nil => simp [matchesNumberedList] at h
  | cons c rest =>
    have hc : isPyDigit c = true := by
      by_contra hnc
      rw [Bool.not_eq_true] at hnc
      simp [matchesNumberedList, hnc] at h
    obtain ⟨h1, h2, h3⟩ := digit_head_not_marker hc
    simp [classifyChars, charsStartWith, h1, h2, h3, h]

theorem classifyChars_fst_numbered {cs : List Char}
    (h : (classifyChars cs).map Prod.fst = some LineClass.numbered) :
    matchesNumberedList cs = true := by
  by_contra hm
  rw [Bool.not_eq_true] at hm
  unfold classifyChars at h
  split_ifs at h <;> simp_all

theorem pyStrip_mk_strip (cs : List Char) :
    pyStrip (String.mk (stripChars cs)) = String.mk (stripChars cs) :=
  congrArg String.mk (stripChars_idem cs)

theorem lineFlowable_eq_none_iff (l : String) :
    lineFlowable l = none ↔ stripChars l.toList = [] := by
  simp [lineFlowable, classifyLine, Option.map_eq_none',
    classifyChars_eq_none_iff]

theorem lineFlowable_not_title {l : String} {f : Flowable}
    (h : lineFlowable l = some f) :
    isTitleBlock f = false ∧ isNonTitleBlock f = true ∧ isBlockPara f = true := by
  unfold lineFlowable at h
  obtain ⟨kt, hkt, rfl⟩ := Option.map_eq_some'.mp h
  obtain ⟨k, ts⟩ := kt
  cases k <;> exact ⟨rfl, rfl, rfl⟩

theorem filterMap_lineFlowable_length (ls : List String) :
    (ls.filterMap lineFlowable).length =
      (ls.filter fun l => !(pyStrip l == "")).length := by
  induction ls with
  | nil => rfl
  | cons a as ih =>
    by_cases h : stripChars a.toList = []
    · have h1 : lineFlowable a = none := (lineFlowable_eq_none_iff a).mpr h
      have h2 : (pyStrip a == "") = true := by
        rw [beq_iff_eq]
        show String.mk (stripChars a.toList) = ""
        rw [h]
      simp [List.filterMap_cons, h1, List.filter_cons, h2, ih]
    · obtain ⟨f, hf⟩ : ∃ f, lineFlowable a = some f := by
        cases hfa : lineFlowable a with
        | none => exact absurd ((lineFlowable_eq_none_iff a).mp hfa) h
        | some f => exact ⟨f, rfl⟩
      have h2 : (pyStrip a == "") = false := by
        rw [beq_eq_false_iff_ne]
        intro he
        exact h (congrArg String.data he)
      simp [List.filterMap_cons, hf, List.filter_cons, h2, ih]

theorem classifyChars_strip_cases (cs : List Char) (k : LineClass)
    (ts : List Char) (h : classifyChars cs = some (k, ts)) :
    (k = .bullet → ∃ y, ts = '•' :: ' ' :: stripChars y) ∧
    (k ≠ .bullet → ts = cs ∨ ∃ y, ts = stripChars y) := by
  unfold classifyChars at h
  split_ifs at h with c1 c2 c3 c4 c5
  all_goals
    rw [Option.some.injEq, Prod.mk.injEq] at h
  all_goals
    obtain ⟨hk, hts⟩ := h
  all_goals
    subst hk
  all_goals
    subst hts
  · exact ⟨fun hb => absurd hb (by decide), fun _ => Or.inr ⟨_, rfl⟩⟩
  · exact ⟨fun hb => absurd hb (by decide), fun _ => Or.inr ⟨_, rfl⟩⟩
  · exact ⟨fun hb => absurd hb (by decide), fun _ => Or.inr ⟨_, rfl⟩⟩
  · exact ⟨fun _ => ⟨_, rfl⟩, fun hnb => absurd rfl hnb⟩
  · exact ⟨fun hb => absurd hb (by decide), fun _ => Or.inl rfl⟩
  · exact ⟨fun hb => absurd hb (by decide), fun _ => Or.inl rfl⟩

/-! ## Claim theorems -/

/-- C1 (counterexample): the claim as stated is false at the trimmed line
`"####  A"` (two spaces after the hashes).  Its trimmed form does start
with `"#### "`, and it classifies as H3, but the displayText is `"A"` —
the remainder after the prefix stripped of whitespace — not the literal
remainder `" A"` the claim requires. -/
theorem h4_line_literal_remainder_refuted :
    pyStartsWith (pyStrip "####  A") "#### " = true ∧
    classifyLine "####  A" = some (.h3, "A") ∧
    pyDrop (pyStrip "####  A") 5 = " A" ∧
    classifyLine "####  A" ≠
      some (.h3, pyDrop (pyStrip "####  A") 5) := by
  refine ⟨by decide, by decide, by decide, by decide⟩

/-- C1 (amended): for every input line whose trimmed form starts with
`"#### "`, the classifier assigns tier H3 with displayText the remainder
after that prefix stripped of leading and trailing whitespace — in
particular it never assigns H2 or H1, and `"#### A"` classifies as H3 with
displayText `"A"`.  The longest matching prefix wins even though the
source tests `"## "` first, because each tested prefix ends in a space. -/
theorem h4_line_is_h3 :
    (∀ line : String, pyStartsWith (pyStrip line) "#### " = true →
      classifyLine line =
        some (.h3, pyStrip (pyDrop (pyStrip line) 5))) ∧
    classifyLine "#### A" = some (.h3, "A") := by
  refine ⟨?_, by decide⟩
  intro line h
  obtain ⟨t, ht⟩ := (charsStartWith_iff ("#### ".toList) ((pyStrip line).toList)).mp h
  have ht' : (pyStrip line).toList = '#' :: '#' :: '#' :: '#' :: ' ' :: t := by
    simpa using ht
  have h5 : pyDrop (pyStrip line) 5 = String.mk t := by
    simp only [pyDrop, ht']
    rfl
  rw [h5, classifyLine_eq, ht', classifyChars_h3]
  rfl

/-- C1 witness for the amended theorem, at the concrete line `"#### A"`. -/
theorem h4_line_is_h3_witness :
    classifyLine "#### A" =
      some (.h3, pyStrip (pyDrop (pyStrip "#### A") 5)) :=
  h4_line_is_h3.1 "#### A" (by decide)

/-- C2: for every input string, the renderer emits exactly one non-title
Block per line that is non-blank after trimming (a blank line produces no
Block); in particular `"A\n\n\nB"` yields exactly two non-title Blocks. -/
theorem nonTitle_block_count :
    (∀ text : String,
      ((buildStory text).filter isNonTitleBlock).length =
        ((pySplitLines text).filter fun l => !(pyStrip l == "")).length) ∧
    ((buildStory "A\n\n\nB").filter isNonTitleBlock).length = 2 := by
  refine ⟨?_, by decide⟩
  intro text
  have h0 : isNonTitleBlock titleParagraph = false := rfl
  have h1 : isNonTitleBlock (.spacer 1 20) = false := rfl
  have h2 : ((pySplitLines text).filterMap lineFlowable).filter isNonTitleBlock =
      (pySplitLines text).filterMap lineFlowable := by
    rw [List.filter_eq_self]
    intro f hf
    obtain ⟨l, _, hfl⟩ := List.mem_filterMap.mp hf
    exact (lineFlowable_not_title hfl).2.1
  simp only [buildStory, List.filter_cons, h0, h1, Bool.false_eq_true, if_false]
  rw [h2, filterMap_lineFlowable_length]

/-- C3 (counterexample): the claim's "exactly when ... one or more ASCII
digits" is false at the trimmed line `"٣. x"` (Arabic-Indic digit three,
U+0663): the source's `re.match(r'^\d+\.\s', line)` matches it, because
Python's `\d` on `str` patterns is Unicode-aware, so the line is classified
as a numbered ListItem — yet the ASCII-digit pattern of the claim does not
match it. -/
theorem numbered_ascii_pattern_refuted :
    classifyLine "٣. x" = some (.numbered, "٣. x") ∧
    matchesNumberedAscii (pyStrip "٣. x").toList = false := by
  refine ⟨by decide, by decide⟩

/-- C3 (amended): a trimmed line is classified as a numbered ListItem
exactly when it matches, at line start, one or more Unicode decimal digits
(Python's `\d`, which includes the ASCII digits), a literal `'.'` and a
whitespace character; and for such a line the displayText is the (trimmed)
line unchanged — the number is retained, not re-prefixed. -/
theorem numbered_list_classification :
    ∀ line : String,
      (((classifyLine line).map (fun kt => kt.1) = some LineClass.numbered) ↔
        matchesNumberedList (pyStrip line).toList = true) ∧
      (matchesNumberedList (pyStrip line).toList = true →
        classifyLine line = some (.numbered, pyStrip line)) := by
  intro line
  have hmap : (classifyLine line).map (fun kt => kt.1) =
      (classifyChars (pyStrip line).toList).map Prod.fst := by
    rw [classifyLine_eq]
    cases classifyChars (pyStrip line).toList <;> rfl
  refine ⟨⟨?_, ?_⟩, ?_⟩
  · intro h
    rw [hmap] at h
    exact classifyChars_fst_numbered h
  · intro h
    rw [hmap, classifyChars_numbered h]
    rfl
  · intro h
    rw [classifyLine_eq, classifyChars_numbered h]
    rfl

/-- C3 witness at the concrete line `"12. Renew license"`: it is a
numbered ListItem and its displayText is exactly the original line. -/
theorem numbered_list_classification_witness :
    classifyLine "12. Renew license" =
      some (.numbered, pyStrip "12. Renew license") ∧
    pyStrip "12. Renew license" = "12. Renew license" :=
  ⟨(numbered_list_classification "12. Renew license").2 (by decide), by decide⟩

/-- C4 (counterexample): the claim as stated is false at the trimmed line
`"-  item"` (two spaces after the dash).  It classifies as a bullet
ListItem, but the displayText is `"• item"` — `"• "` plus the remainder
stripped of whitespace — not `"• "` plus the literal remainder
`" item"`. -/
theorem bullet_literal_remainder_refuted :
    pyStartsWith (pyStrip "-  item") "- " = true ∧
    classifyLine "-  item" = some (.bullet, "• item") ∧
    "• " ++ pyDrop (pyStrip "-  item") 2 = "•  item" ∧
    classifyLine "-  item" ≠
      some (.bullet, "• " ++ pyDrop (pyStrip "-  item") 2) := by
  refine ⟨by decide, by decide, by decide, by decide⟩

/-- C4 (amended): for every line whose trimmed form starts with `"• "` or
`"- "`, the classifier assigns tier ListItem (bullet) and the displayText
is `"• "` followed by the remainder after the prefix stripped of leading
and trailing whitespace; both `"- item"` and `"• item"` yield displayText
exactly `"• item"`. -/
theorem bullet_normalization :
    (∀ line : String,
      pyStartsWith (pyStrip line) "• " = true ∨
        pyStartsWith (pyStrip line) "- " = true →
      classifyLine line =
        some (.bullet, "• " ++ pyStrip (pyDrop (pyStrip line) 2))) ∧
    classifyLine "- item" = some (.bullet, "• item") ∧
    classifyLine "• item" = some (.bullet, "• item") := by
  refine ⟨?_, by decide, by decide⟩
  intro line h
  cases h with
  | inl h =>
    obtain ⟨t, ht⟩ := (charsStartWith_iff ("• ".toList) ((pyStrip line).toList)).mp h
    have ht' : (pyStrip line).toList = '•' :: ' ' :: t := by simpa using ht
    have h2 : pyDrop (pyStrip line) 2 = String.mk t := by
      simp only [pyDrop, ht']
      rfl
    rw [h2, classifyLine_eq, ht', classifyChars_bullet_dot]
    rfl
  | inr h =>
    obtain ⟨t, ht⟩ := (charsStartWith_iff ("- ".toList) ((pyStrip line).toList)).mp h
    have ht' : (pyStrip line).toList = '-' :: ' ' :: t := by simpa using ht
    have h2 : pyDrop (pyStrip line) 2 = String.mk t := by
      simp only [pyDrop, ht']
      rfl
    rw [h2, classifyLine_eq, ht', classifyChars_bullet_dash]
    rfl

/-- C4 witness for the amended theorem, at the concrete line `"- item"`. -/
theorem bullet_normalization_witness :
    classifyLine "- item" =
      some (.bullet, "• " ++ pyStrip (pyDrop (pyStrip "- item") 2)) :=
  bullet_normalization.1 "- item" (Or.inr (by decide))

/-- C5: for every input string, the produced story starts with the fixed
Title Block (its caption `"IRDAI Document Analysis Summary"` is a
constant, independent of the input), the title tier occurs exactly once
in the story, and the Blocks of the story are the title followed by the
line-derived Blocks in exactly the order of their source lines. -/
theorem document_block_order :
    ∀ text : String,
      (buildStory text).head? = some titleParagraph ∧
      (buildStory text).countP isTitleBlock = 1 ∧
      (buildStory text).filter isBlockPara =
        titleParagraph :: (pySplitLines text).filterMap lineFlowable := by
  intro text
  have hz : ((pySplitLines text).filterMap lineFlowable).countP isTitleBlock = 0 := by
    rw [List.countP_eq_zero]
    intro f hf
    obtain ⟨l, _, hfl⟩ := List.mem_filterMap.mp hf
    rw [(lineFlowable_not_title hfl).1]
    simp
  refine ⟨rfl, ?_, ?_⟩
  · rw [buildStory, List.countP_cons, List.countP_cons, hz]
    rfl
  · have hself : ((pySplitLines text).filterMap lineFlowable).filter isBlockPara =
        (pySplitLines text).filterMap lineFlowable := by
      rw [List.filter_eq_self]
      intro f hf
      obtain ⟨l, _, hfl⟩ := List.mem_filterMap.mp hf
      exact (lineFlowable_not_title hfl).2.2
    have ht : isBlockPara titleParagraph = true := rfl
    have hs : isBlockPara (.spacer 1 20) = false := rfl
    simp only [buildStory, List.filter_cons, ht, hs, if_true,
      Bool.false_eq_true, if_false]
    rw [hself]

/-- C6: rendering is deterministic: viewed as a function of the input
string (and of the backend, itself a function of the story), two calls of
`parse_structured_text_to_pdf` on the same text return byte-for-byte
identical results — in particular the unused `filename` argument has no
influence on the output. -/
theorem render_deterministic :
    ∀ (build : List Flowable → Except PdfError (List Nat))
      (text fname₁ fname₂ : String),
      parse_structured_text_to_pdf build text fname₁ =
        parse_structured_text_to_pdf build text fname₂ :=
  fun _ _ _ _ => rfl

/-- C7: if the layout backend fails on the story (e.g. a character it
cannot encode), `parse_structured_text_to_pdf` propagates exactly that
error to its caller — no retry, no recovery, and no byte sequence is
returned (the result is the error, never a partial `.ok`). -/
theorem backend_error_propagates :
    ∀ (build : List Flowable → Except PdfError (List Nat))
      (text fname : String) (e : PdfError),
      build (buildStory text) = .error e →
      parse_structured_text_to_pdf build text fname = Except.error e := by
  intro build text fname e h
  unfold parse_structured_text_to_pdf
  rw [h]

/-- C7 witness: a backend that always fails with an encoding error makes
the renderer return exactly that error. -/
theorem backend_error_propagates_witness :
    parse_structured_text_to_pdf
      (fun _ => Except.error (.encoding "character not encodable"))
      "## Scope" "irdai_summary.pdf" =
      Except.error (.encoding "character not encodable") :=
  backend_error_propagates _ "## Scope" "irdai_summary.pdf" _ rfl

/-- C8: the style table built by `create_pdf_styles` satisfies the spec's
relative ordering — font sizes Title > H1 > H2 > H3 ≥ Body with ListItem
equal to Body; left indents H2 > H1, H3 > H2, Body and Title unindented,
ListItem indented and carrying an additional bullet indent — and style
lookup is total over the six tiers: each tier's name has exactly one rule
in the table. -/
theorem style_table_contract :
    ((styleFor .Title).fontSize > (styleFor .H1).fontSize ∧
     (styleFor .H1).fontSize > (styleFor .H2).fontSize ∧
     (styleFor .H2).fontSize > (styleFor .H3).fontSize ∧
     (styleFor .H3).fontSize ≥ (styleFor .Body).fontSize ∧
     (styleFor .ListItem).fontSize = (styleFor .Body).fontSize ∧
     (styleFor .H2).leftIndent > (styleFor .H1).leftIndent ∧
     (styleFor .H3).leftIndent > (styleFor .H2).leftIndent ∧
     (styleFor .Body).leftIndent = 0 ∧
     (styleFor .Title).leftIndent = 0 ∧
     (styleFor .ListItem).leftIndent > 0 ∧
     (styleFor .ListItem).bulletIndent > 0) ∧
    ∀ t : Tier,
      (create_pdf_styles.filter fun s => s.name == tierStyleName t).length = 1 :=
  ⟨by decide, fun t => by cases t <;> decide⟩

/-- C9 (implicit): every heading Block's displayText, and the text after
the `"• "` marker of every bullet Block, is stripped of leading and
trailing whitespace beyond the prefix removal (numbered and body Blocks
carry the trimmed line itself), so no Block's displayText has leading or
trailing whitespace from the source line; e.g. `"##   A  "` yields an H1
Block with displayText `"A"`. -/
theorem display_text_stripped :
    (∀ (line : String) (k : LineClass) (t : String),
      classifyLine line = some (k, t) →
      ((k = .h1 ∨ k = .h2 ∨ k = .h3 ∨ k = .numbered ∨ k = .body) →
        pyStrip t = t) ∧
      (k = .bullet → ∃ r, t = "• " ++ r ∧ pyStrip r = r)) ∧
    classifyLine "##   A  " = some (.h1, "A") := by
  refine ⟨?_, by decide⟩
  intro line k t h
  rw [classifyLine_eq] at h
  cases hx : classifyChars (pyStrip line).toList with
  | none =>
    rw [hx] at h
    exact absurd h (by simp)
  | some kt =>
    obtain ⟨k0, ts⟩ := kt
    rw [hx, Option.map_some'] at h
    rw [Option.some.injEq, Prod.mk.injEq] at h
    obtain ⟨hk, ht⟩ := h
    subst hk
    subst ht
    obtain ⟨hb, hnb⟩ := classifyChars_strip_cases _ _ _ hx
    constructor
    · intro hksort
      have hnbul : k0 ≠ .bullet := by
        rcases hksort with h' | h' | h' | h' | h' <;> (subst h'; decide)
      rcases hnb hnbul with hcs | ⟨y, hy⟩
      · subst hcs
        exact pyStrip_mk_strip line.toList
      · subst hy
        exact pyStrip_mk_strip y
    · intro hkb
      obtain ⟨y, hy⟩ := hb hkb
      subst hy
      exact ⟨String.mk (stripChars y), rfl, pyStrip_mk_strip y⟩

/-- C9 witness, at the concrete line `"##   A  "`: its H1 displayText
`"A"` is strip-stable. -/
theorem display_text_stripped_witness : pyStrip "A" = "A" :=
  (display_text_stripped.1 "##   A  " .h1 "A" display_text_stripped.2).1
    (Or.inl rfl)

/-- C10 (implicit): on its non-exception path `extract_english_text`
always returns a string ending in `'.'` (never the empty string, never
the untouched original), and when no sentence is collected — none longer
than 10 characters is detected as English and none hits the keyword
fallback — it returns exactly `"."`. -/
theorem extract_terminal_period :
    ∀ (detect : String → Except Unit String) (text : String),
      extract_english_text detect text ≠ "" ∧
      (extract_english_text detect text).toList.getLast? = some '.' ∧
      (collectEnglish detect (splitSentences text) = [] →
        extract_english_text detect text = ".") := by
  intro detect text
  have hdata : (extract_english_text detect text).toList =
      (joinDotSpace (collectEnglish detect (splitSentences text))).toList ++
        ['.'] := rfl
  refine ⟨?_, ?_, ?_⟩
  · intro he
    have h2 := congrArg String.toList he
    rw [hdata] at h2
    simp at h2
  · rw [hdata, List.getLast?_concat]
  · intro h
    show joinDotSpace (collectEnglish detect (splitSentences text)) ++ "." = "."
    rw [h]
    rfl

/-- C10 witness: with a detector that always raises and an input whose
only sentence is 10 characters or shorter, the result is exactly `"."`. -/
theorem extract_terminal_period_witness :
    extract_english_text (fun _ => Except.error ()) "hi there" = "." :=
  (extract_terminal_period (fun _ => Except.error ()) "hi there").2.2 rfl

end DocAnalyzer
